import Mathlib

/-!
Shallow embedding of the stacktrace session/capture core:
  src/database/DatabaseManager.js
  src/monitors/FileMonitor.js
  src/monitors/GitMonitor.js
  services/SessionManager.js (the monitor-integrated version shipped in the
    repository, appended to src/.kiro/specs/stacktrace-blog-generator/requirements.md)

Modelling conventions:
  - SQLite tables become lists of row structures; `datetime('now')` becomes the
    store clock value `DbState.now`; AUTOINCREMENT becomes `nextSessionId`
    (starting at 1, as in SQLite).
  - Async JS is single-threaded with suspension only at `await` points, so each
    method is a pure state-passing function.  A snapshot flush contains no
    real suspension point (its only awaited call throws synchronously, since
    the target method does not exist), so it is one atomic step; watcher
    events are delivered between steps, as trackFileChange steps of their own.
  - Calls into the store whose target method does not exist on the
    DatabaseManager object throw a JS TypeError; the embedding returns
    `Except.error` with that message.
  - Each monitor write call-site additionally emits a trace record (an
    "attempt"), so theorems can speak about which writes were issued and in
    what order, independently of whether they succeeded.
-/

/-- Row of the `sessions` table (see createTables in DatabaseManager.js). -/
structure SessionRow where
  id : Nat
  projectPath : String
  startTime : Nat
  endTime : Option Nat
  status : String
deriving DecidableEq, Repr

/-- Row of the `snapshots` table. -/
structure SnapshotRow where
  id : Nat
  sessionId : Nat
  timestamp : Nat
  filePath : String
  fileSize : Option Nat
  lastModified : Option Nat
  changeType : String
deriving DecidableEq, Repr

/-- The structured `filesChanged` payload of a git event: either the
name-only file list of one commit, or the categorized working-tree lists
(staged, modified, untracked, deleted) of a status_change event. -/
inductive FilesChanged where
  | fileList : List String → FilesChanged
  | statusLists : List String → List String → List String → List String → FilesChanged
deriving DecidableEq, Repr

/-- Row of the `git_events` table. -/
structure GitEventRow where
  id : Nat
  sessionId : Nat
  timestamp : Nat
  eventType : String
  branchName : Option String
  commitHash : Option String
  commitMessage : Option String
  filesChanged : Option FilesChanged
deriving DecidableEq, Repr

/-- The persistent store state: the three tables the core touches, the
sessions AUTOINCREMENT counter, and the store clock. -/
structure DbState where
  sessions : List SessionRow
  snapshots : List SnapshotRow
  gitEvents : List GitEventRow
  nextSessionId : Nat
  now : Nat
deriving DecidableEq, Repr

/-- The freshly created stacktrace.db: empty tables, ids from 1. -/
def emptyDb : DbState :=
  { sessions := [], snapshots := [], gitEvents := [], nextSessionId := 1, now := 0 }

/-- The record FileMonitor.captureSnapshot passes to the store for one file. -/
structure SnapshotRecord where
  filePath : String
  fileSize : Option Nat
  lastModified : Option Nat
  changeType : String
deriving DecidableEq, Repr

/-- Trace of one `this.dbManager.insertSnapshot(sessionId, record)` call. -/
structure SnapshotAttempt where
  sessionId : Nat
  record : SnapshotRecord
deriving DecidableEq, Repr

/-- Trace of one `this.dbManager.insertGitEvent(sessionId, eventData)` call,
carrying the eventData object built in GitMonitor.captureGitEvent. -/
structure GitEventAttempt where
  sessionId : Nat
  eventType : String
  branchName : Option String
  commitHash : Option String
  commitMessage : Option String
  filesChanged : Option FilesChanged
deriving DecidableEq, Repr

namespace DatabaseManager

/-- The methods defined on the DatabaseManager class in
src/database/DatabaseManager.js, transcribed in source order.  Notably the
list has no insertSnapshot and no insertGitEvent: the class ends at `close`
and defines no write operation for the snapshots or git_events tables. -/
def definedMethods : List String :=
  ["constructor", "initialize", "createTables", "createSession", "endSession",
   "getActiveSession", "getSessionById", "getSessionStats", "close"]

/-- `this.dbManager.insertSnapshot(...)` as called by
FileMonitor.captureSnapshot: DatabaseManager.js defines no such method, so in
JS the property lookup yields undefined and the call throws a TypeError. -/
def insertSnapshot (_db : DbState) (_sessionId : Nat) (_record : SnapshotRecord) :
    Except String DbState :=
  .error "TypeError: this.dbManager.insertSnapshot is not a function"

/-- `this.dbManager.insertGitEvent(...)` as called by
GitMonitor.captureGitEvent: DatabaseManager.js defines no such method, so in
JS the property lookup yields undefined and the call throws a TypeError. -/
def insertGitEvent (_db : DbState) (_sessionId : Nat) (_event : GitEventAttempt) :
    Except String (DbState × Nat) :=
  .error "TypeError: this.dbManager.insertGitEvent is not a function"

/-- DatabaseManager.createSession: INSERT INTO sessions with status 'active',
returning lastInsertRowid. -/
def createSession (db : DbState) (projectPath : String) : DbState × Nat :=
  let id := db.nextSessionId
  ({ db with
      sessions := db.sessions ++
        [{ id := id, projectPath := projectPath, startTime := db.now,
           endTime := none, status := "active" }],
      nextSessionId := id + 1 },
   id)

/-- DatabaseManager.endSession: UPDATE sessions SET end_time, status='completed'
WHERE id = ? AND status = 'active'; returns whether any row changed. -/
def endSession (db : DbState) (sessionId : Nat) : DbState × Bool :=
  let changed := db.sessions.any (fun r => r.id == sessionId && r.status == "active")
  ({ db with
      sessions := db.sessions.map (fun r =>
        if r.id == sessionId && r.status == "active" then
          { r with endTime := some db.now, status := "completed" }
        else r) },
   changed)

/-- ORDER BY start_time DESC LIMIT 1 over a result list: the row with the
largest start time (among equals, a later row in table order is kept; with at
most one active row this choice never matters). -/
def pickLatest : List SessionRow → Option SessionRow
  | [] => none
  | r :: rest =>
    match pickLatest rest with
    | none => some r
    | some b => if b.startTime ≥ r.startTime then some b else some r

/-- DatabaseManager.getActiveSession: SELECT * FROM sessions WHERE
status = 'active' ORDER BY start_time DESC LIMIT 1. -/
def getActiveSession (db : DbState) : Option SessionRow :=
  pickLatest (db.sessions.filter (fun r => r.status == "active"))

/-- DatabaseManager.getSessionById: SELECT * FROM sessions WHERE id = ?. -/
def getSessionById (db : DbState) (sessionId : Nat) : Option SessionRow :=
  db.sessions.find? (fun r => r.id == sessionId)

/-- Result shape of DatabaseManager.getSessionStats. -/
structure SessionStats where
  snapshots : Nat
  gitEvents : Nat
deriving DecidableEq, Repr

/-- DatabaseManager.getSessionStats: COUNT(*) over snapshots and git_events
for one session. -/
def getSessionStats (db : DbState) (sessionId : Nat) : SessionStats :=
  { snapshots := (db.snapshots.filter (fun r => r.sessionId == sessionId)).length,
    gitEvents := (db.gitEvents.filter (fun r => r.sessionId == sessionId)).length }

end DatabaseManager

/-- External filesystem view used during a flush: fs.existsSync and the two
fields of fs.statSync the monitor reads. -/
structure FsView where
  fileExists : String → Bool
  size : String → Nat
  mtime : String → Nat

/-- One entry of FileMonitor's activeFiles map (the object built in
trackFileChange). -/
structure FileInfo where
  path : String
  absolutePath : String
  changeType : String
  timestamp : Nat
deriving DecidableEq, Repr

/-- In-memory state of a FileMonitor instance.  The chokidar watcher handle and
the interval timer are modelled by presence flags; the activeFiles JS Map is an
insertion-ordered association list keyed by relative path. -/
structure FileMonitorState where
  projectPath : Option String
  sessionId : Option Nat
  isWatching : Bool
  snapshotIntervalSet : Bool
  watcherSet : Bool
  activeFiles : List (String × FileInfo)
deriving DecidableEq, Repr

/-- The state of a freshly constructed FileMonitor. -/
def initFileMonitor : FileMonitorState :=
  { projectPath := none, sessionId := none, isWatching := false,
    snapshotIntervalSet := false, watcherSet := false, activeFiles := [] }

namespace FileMonitor

/-- Node's path.relative, modelled for the watched-tree case the monitor
exercises: a file under the project root maps to its path relative to the
root; anything else is left unchanged. -/
def relativeTo (base target : String) : String :=
  if (base.data ++ ['/']).isPrefixOf target.data then
    String.mk (target.data.drop (base.data.length + 1))
  else target

/-- JS Map.set semantics: an existing key keeps its position and gets the new
value; a new key is appended. -/
def mapSet (m : List (String × FileInfo)) (k : String) (v : FileInfo) :
    List (String × FileInfo) :=
  if m.any (fun e => e.1 == k) then
    m.map (fun e => if e.1 == k then (k, v) else e)
  else m ++ [(k, v)]

/-- FileMonitor.trackFileChange: ignore events when not watching, otherwise
coalesce into activeFiles keyed by relative path, keeping only the most recent
change kind.  (If projectPath were unset, path.relative would throw and the
surrounding catch would swallow it, leaving the state unchanged.) -/
def trackFileChange (st : FileMonitorState) (filePath changeType : String)
    (now : Nat) : FileMonitorState :=
  if st.isWatching = false then st
  else
    match st.projectPath with
    | none => st
    | some pp =>
      let relativePath := relativeTo pp filePath
      let info : FileInfo :=
        { path := relativePath, absolutePath := filePath,
          changeType := changeType, timestamp := now }
      { st with activeFiles := mapSet st.activeFiles relativePath info }

/-- Result of a flush: the monitor state, the store state, and the trace of
insertSnapshot calls that were issued. -/
structure FlushOut where
  st : FileMonitorState
  db : DbState
  attempts : List SnapshotAttempt
deriving Repr

/-- The per-file loop of captureSnapshot: resolve size/mtime (skipped for
deletions and vanished files), call insertSnapshot, and swallow any per-file
error so the rest of the batch still flushes. -/
def snapshotWriteLoop (sid : Nat) (fsv : FsView) :
    DbState → List FileInfo → DbState × List SnapshotAttempt
  | db, [] => (db, [])
  | db, fileInfo :: rest =>
    let statOk := fileInfo.changeType != "deleted" && fsv.fileExists fileInfo.absolutePath
    let record : SnapshotRecord :=
      { filePath := fileInfo.path,
        fileSize := if statOk then some (fsv.size fileInfo.absolutePath) else none,
        lastModified := if statOk then some (fsv.mtime fileInfo.absolutePath) else none,
        changeType := fileInfo.changeType }
    match DatabaseManager.insertSnapshot db sid record with
    | .ok db1 =>
      let (db2, atts) := snapshotWriteLoop sid fsv db1 rest
      (db2, { sessionId := sid, record := record } :: atts)
    | .error _ =>
      let (db2, atts) := snapshotWriteLoop sid fsv db rest
      (db2, { sessionId := sid, record := record } :: atts)

/-- FileMonitor.captureSnapshot.  Mirrors the source exactly: early return when
no session or not watching; copy the activeFiles values into filesToCapture;
early return when that copy is empty; run the stat/write loop over the copy;
then clear the whole activeFiles map.  The body is one uninterrupted
synchronous block of the event loop: its only `await` operand is the call to
the missing insertSnapshot method, which throws synchronously before any
suspension could occur, and existsSync, statSync, the logging and clear() are
all synchronous — so no watcher callback can run between the copy and the
clear, a flush is a single atomic step of the system, and watcher events are
delivered strictly before or after it (as separate trackFileChange steps). -/
def captureSnapshot (st : FileMonitorState) (fsv : FsView) (db : DbState) :
    FlushOut :=
  match st.sessionId with
  | none => ⟨st, db, []⟩
  | some sid =>
    if st.isWatching = false then ⟨st, db, []⟩
    else
      let filesToCapture := st.activeFiles.map (fun e => e.2)
      if filesToCapture.length = 0 then ⟨st, db, []⟩
      else
        let walked := snapshotWriteLoop sid fsv db filesToCapture
        ⟨{ st with activeFiles := [] }, walked.1, walked.2⟩

/-- Result of startWatching / stopWatching: state, store, issued writes, and
the boolean the method returns. -/
structure LifecycleOut where
  st : FileMonitorState
  db : DbState
  attempts : List SnapshotAttempt
  ok : Bool
deriving Repr

/-- FileMonitor.startWatching: record path and session, attach the chokidar
watcher (`watchOk` models whether that attachment succeeds; on failure the
catch returns false), set isWatching, run the immediate initial snapshot, then
install the 30-minute interval timer and return true. -/
def startWatching (st : FileMonitorState) (fsv : FsView) (db : DbState)
    (projectPath : String) (sessionId : Nat) (watchOk : Bool) : LifecycleOut :=
  let st1 := { st with projectPath := some projectPath, sessionId := some sessionId }
  if watchOk = false then ⟨st1, db, [], false⟩
  else
    let st2 := { st1 with watcherSet := true, isWatching := true }
    let flush := captureSnapshot st2 fsv db
    ⟨{ flush.st with snapshotIntervalSet := true }, flush.db, flush.attempts, true⟩

/-- FileMonitor.stopWatching, in source order: isWatching is set to false
FIRST; then, if a session is set, captureSnapshot is called (its guard sees
isWatching = false); then the interval timer is cleared, the watcher closed,
and activeFiles / projectPath / sessionId wiped; returns true. -/
def stopWatching (st : FileMonitorState) (fsv : FsView) (db : DbState) :
    LifecycleOut :=
  let st1 := { st with isWatching := false }
  let flush :=
    match st1.sessionId with
    | some _ => captureSnapshot st1 fsv db
    | none => ⟨st1, db, []⟩
  let stFinal :=
    { flush.st with
        snapshotIntervalSet := false, watcherSet := false, activeFiles := [],
        projectPath := none, sessionId := none }
  ⟨stFinal, flush.db, flush.attempts, true⟩

end FileMonitor

/-- One element of the simple-git `log` result as mapped by
GitMonitor.getRecentCommits (hash, message, author, date, refs). -/
structure Commit where
  hash : String
  message : String
  author : String
  date : String
  refs : String
deriving DecidableEq, Repr

/-- External repository view for one poll: the simple-git status fields the
monitor reads (current branch, staged / modified / not_added / deleted), the
log ordered newest-first, and the name-only diff of each commit. -/
structure GitView where
  statusCurrent : Option String
  recentCommits : List Commit
  staged : List String
  modified : List String
  notAdded : List String
  deleted : List String
  commitFiles : String → List String

/-- In-memory state of a GitMonitor instance.  `hasGit` models whether
`this.git` is set; the poll interval timer is a presence flag. -/
structure GitMonitorState where
  hasGit : Bool
  projectPath : Option String
  sessionId : Option Nat
  isMonitoring : Bool
  monitoringIntervalSet : Bool
  lastCommitHash : Option String
  lastBranch : Option String
deriving DecidableEq, Repr

/-- The state of a freshly constructed GitMonitor. -/
def initGitMonitor : GitMonitorState :=
  { hasGit := false, projectPath := none, sessionId := none,
    isMonitoring := false, monitoringIntervalSet := false,
    lastCommitHash := none, lastBranch := none }

/-- The `data` argument of GitMonitor.captureGitEvent (fields absent on the JS
object are none). -/
structure EventData where
  branchName : Option String := none
  commitHash : Option String := none
  commitMessage : Option String := none
  message : Option String := none
  filesChanged : Option FilesChanged := none

namespace GitMonitor

/-- GitMonitor.getCurrentBranch: `status.current || 'unknown'`. -/
def getCurrentBranch (gv : GitView) : String :=
  match gv.statusCurrent with
  | some b => b
  | none => "unknown"

/-- GitMonitor.getRecentCommits: `git.log` limited to `count` entries. -/
def getRecentCommits (gv : GitView) (count : Nat) : List Commit :=
  gv.recentCommits.take count

/-- GitMonitor.getCommitFiles: name-only diff of one commit (errors degrade to
an empty list in the source; the view is total). -/
def getCommitFiles (gv : GitView) (commitHash : String) : List String :=
  gv.commitFiles commitHash

/-- JS template-literal rendering of a possibly-null branch. -/
def branchText : Option String → String
  | some b => b
  | none => "null"

/-- Result of captureGitEvent: the store state, the trace of insertGitEvent
calls issued (zero or one), and the value the method returns (the new row id,
or null when there is no session or the insert failed). -/
structure CaptureOut where
  db : DbState
  attempts : List GitEventAttempt
  eventId : Option Nat
deriving Repr

/-- GitMonitor.captureGitEvent: without a session id, warn and return null;
otherwise build the eventData object (commitMessage falls back to
data.message) and call insertGitEvent, swallowing its failure and returning
null. -/
def captureGitEvent (st : GitMonitorState) (db : DbState) (eventType : String)
    (data : EventData) : CaptureOut :=
  match st.sessionId with
  | none => ⟨db, [], none⟩
  | some sid =>
    let att : GitEventAttempt :=
      { sessionId := sid, eventType := eventType,
        branchName := data.branchName,
        commitHash := data.commitHash,
        commitMessage :=
          match data.commitMessage with
          | some m => some m
          | none => data.message,
        filesChanged := data.filesChanged }
    match DatabaseManager.insertGitEvent db sid att with
    | .ok r => ⟨r.1, [att], some r.2⟩
    | .error _ => ⟨db, [att], none⟩

/-- The commit-walk of pollGitChanges: collect commits newest-first until the
last-known hash is met (`break`); if it never appears, the whole polled list
is collected. -/
def collectNewCommits (lastHash : Option String) : List Commit → List Commit
  | [] => []
  | c :: rest =>
    if some c.hash = lastHash then []
    else c :: collectNewCommits lastHash rest

/-- The per-commit loop of pollGitChanges: one `commit` event per new commit,
oldest first, carrying the commit's name-only file list. -/
def commitWriteLoop (st : GitMonitorState) (gv : GitView) (currentBranch : String) :
    DbState → List Commit → DbState × List GitEventAttempt
  | db, [] => (db, [])
  | db, commit :: rest =>
    let ev := captureGitEvent st db "commit"
      { branchName := some currentBranch, commitHash := some commit.hash,
        commitMessage := some commit.message,
        filesChanged := some (.fileList (getCommitFiles gv commit.hash)) }
    let (db2, atts) := commitWriteLoop st gv currentBranch ev.db rest
    (db2, ev.attempts ++ atts)

/-- GitMonitor.checkStatusChanges: fires when staged, modified or not_added is
non-empty (the deleted list is NOT part of the trigger condition in the
source), emitting one status_change event carrying all four categorized
lists. -/
def checkStatusChanges (st : GitMonitorState) (db : DbState) (gv : GitView) :
    DbState × List GitEventAttempt :=
  if 0 < gv.staged.length ∨ 0 < gv.modified.length ∨ 0 < gv.notAdded.length then
    let ev := captureGitEvent st db "status_change"
      { branchName := some (getCurrentBranch gv),
        message := some "Working directory changes detected",
        filesChanged := some (.statusLists gv.staged gv.modified gv.notAdded gv.deleted) }
    (ev.db, ev.attempts)
  else (db, [])

/-- Result of one poll step / lifecycle phase of the git monitor. -/
structure PollOut where
  st : GitMonitorState
  db : DbState
  attempts : List GitEventAttempt
deriving Repr

/-- Step 1 of pollGitChanges: compare the current branch with the last-known
branch; on a difference, emit one branch_change event and update the
baseline. -/
def branchStep (st : GitMonitorState) (db : DbState) (gv : GitView) : PollOut :=
  let currentBranch := getCurrentBranch gv
  if some currentBranch ≠ st.lastBranch then
    let ev := captureGitEvent st db "branch_change"
      { branchName := some currentBranch,
        message := some ("Switched from " ++ branchText st.lastBranch ++
                         " to " ++ currentBranch) }
    ⟨{ st with lastBranch := some currentBranch }, ev.db, ev.attempts⟩
  else ⟨st, db, []⟩

/-- Step 2 of pollGitChanges: read the last 5 commits newest-first; when the
newest differs from the last-known hash, collect the strictly newer commits,
reverse them to oldest-first, emit one commit event each, and update the
last-known hash to the newest. -/
def commitStep (st : GitMonitorState) (db : DbState) (gv : GitView)
    (currentBranch : String) : PollOut :=
  match getRecentCommits gv 5 with
  | [] => ⟨st, db, []⟩
  | latestCommit :: restCommits =>
    if some latestCommit.hash ≠ st.lastCommitHash then
      let newCommits := collectNewCommits st.lastCommitHash (latestCommit :: restCommits)
      let walked := commitWriteLoop st gv currentBranch db newCommits.reverse
      ⟨{ st with lastCommitHash := some latestCommit.hash }, walked.1, walked.2⟩
    else ⟨st, db, []⟩

/-- GitMonitor.pollGitChanges: guard on isMonitoring and this.git; then
(1) branch comparison, (2) commit-range walk over the last 5 commits,
(3) working-tree status check. -/
def pollGitChanges (st : GitMonitorState) (db : DbState) (gv : GitView) : PollOut :=
  if st.isMonitoring = false ∨ st.hasGit = false then ⟨st, db, []⟩
  else
    let currentBranch := getCurrentBranch gv
    let b := branchStep st db gv
    let c := commitStep b.st b.db gv currentBranch
    let s := checkStatusChanges c.st c.db gv
    ⟨c.st, s.1, b.attempts ++ c.attempts ++ s.2⟩

/-- Result of startMonitoring / stopMonitoring. -/
structure LifecycleOut where
  st : GitMonitorState
  db : DbState
  attempts : List GitEventAttempt
  ok : Bool
deriving Repr

/-- GitMonitor.startMonitoring: set path/session and this.git; probe the
repository (`isRepo` models git.status() succeeding) and return false when it
is not one; otherwise capture the baseline branch and HEAD hash, emit one
session_start event, and install the 5-minute poll timer. -/
def startMonitoring (st : GitMonitorState) (db : DbState) (gv : GitView)
    (projectPath : String) (sessionId : Nat) (isRepo : Bool) : LifecycleOut :=
  let st1 :=
    { st with
        projectPath := some projectPath, sessionId := some sessionId,
        hasGit := true }
  if isRepo = false then ⟨st1, db, [], false⟩
  else
    let branch := getCurrentBranch gv
    let st2 :=
      match getRecentCommits gv 1 with
      | [] => st1
      | c :: _ => { st1 with lastCommitHash := some c.hash }
    let st3 := { st2 with lastBranch := some branch }
    let ev := captureGitEvent st3 db "session_start"
      { branchName := some branch, commitHash := st3.lastCommitHash,
        message := some ("Started monitoring on branch: " ++ branch) }
    let st4 := { st3 with isMonitoring := true, monitoringIntervalSet := true }
    ⟨st4, ev.db, ev.attempts, true⟩

/-- GitMonitor.stopMonitoring: clear the monitoring flag and the poll timer,
emit a best-effort session_end event while git and session context remain,
then wipe the baseline state; returns true. -/
def stopMonitoring (st : GitMonitorState) (db : DbState) : LifecycleOut :=
  let st1 := { st with isMonitoring := false, monitoringIntervalSet := false }
  let ev :=
    if st1.hasGit = true ∧ st1.sessionId.isSome = true then
      captureGitEvent st1 db "session_end" { message := some "Git monitoring stopped" }
    else ⟨db, [], none⟩
  let stFinal :=
    { st1 with
        hasGit := false, projectPath := none, sessionId := none,
        lastCommitHash := none, lastBranch := none }
  ⟨stFinal, ev.db, ev.attempts, true⟩

end GitMonitor
/-- Environment of one startSession call: whether the resolved path exists on
disk, whether the chokidar watch can be established, whether the path is a
git repository, and the filesystem / repository views the monitors read. -/
structure Env where
  pathExists : Bool
  watchOk : Bool
  isRepo : Bool
  fsv : FsView
  gv : GitView

/-- Result object of a successful SessionManager.startSession (the catch
branch that would add a `warning` field is unreachable in the embedding
because both monitor starts absorb their own failures and return false). -/
structure StartResult where
  success : Bool
  sessionId : Nat
  projectPath : String
  startTime : Nat
  message : String
  monitoring : List String
deriving DecidableEq, Repr

/-- Result object of SessionManager.stopSession. -/
structure StopResult where
  success : Bool
  sessionId : Option Nat
  message : String
deriving DecidableEq, Repr

/-- Combined state of a SessionManager instance and its store: the database,
the cached currentSession row, and the two owned monitors. -/
structure SMState where
  db : DbState
  currentSession : Option SessionRow
  fileMonitor : FileMonitorState
  gitMonitor : GitMonitorState
deriving Repr

/-- A freshly constructed SessionManager over a fresh store. -/
def initSMState : SMState :=
  { db := emptyDb, currentSession := none,
    fileMonitor := initFileMonitor, gitMonitor := initGitMonitor }

namespace SessionManager

/-- SessionManager.startSession (services/SessionManager.js, the
monitor-integrated version): validate the path (PathNotFound), check the
store's active session (SessionConflict, message carrying the active id),
create the session row, then start both monitors with the new id; monitor
failures only shrink the `monitoring` list.  Both throws are wrapped by the
outer catch as `Failed to start session: ...`.  The second component is the
object state after the call (unchanged when the call throws, since both
throws precede every mutation). -/
def startSession (st : SMState) (env : Env) (resolvedPath : String) :
    Except String StartResult × SMState :=
  if env.pathExists = false then
    (.error ("Failed to start session: Project path does not exist: " ++ resolvedPath), st)
  else
    match DatabaseManager.getActiveSession st.db with
    | some activeSession =>
      (.error ("Failed to start session: Session already active (ID: " ++
               toString activeSession.id ++ "). Stop the current session first."), st)
    | none =>
      let created := DatabaseManager.createSession st.db resolvedPath
      let db1 := created.1
      let sessionId := created.2
      let currentSession := DatabaseManager.getSessionById db1 sessionId
      let fmOut := FileMonitor.startWatching st.fileMonitor env.fsv db1
        resolvedPath sessionId env.watchOk
      let gmOut := GitMonitor.startMonitoring st.gitMonitor fmOut.db env.gv
        resolvedPath sessionId env.isRepo
      let monitoringStatus :=
        (if fmOut.ok then ["file monitoring"] else []) ++
        (if gmOut.ok then ["git monitoring"] else [])
      (.ok { success := true, sessionId := sessionId, projectPath := resolvedPath,
             startTime := ((currentSession.map (fun s => s.startTime)).getD 0),
             message := "Started tracking session for project: " ++ resolvedPath,
             monitoring := if monitoringStatus.length > 0 then monitoringStatus
                           else ["basic session tracking"] },
       { db := gmOut.db, currentSession := currentSession,
         fileMonitor := fmOut.st, gitMonitor := gmOut.st })

/-- SessionManager.stopSession: with no active session, return the
success:false / "No active session to stop" result without touching anything;
otherwise stop both monitors best-effort, close the session row, and clear the
cached current session. -/
def stopSession (st : SMState) (fsv : FsView) : Except String StopResult × SMState :=
  match DatabaseManager.getActiveSession st.db with
  | none =>
    (.ok { success := false, sessionId := none, message := "No active session to stop" }, st)
  | some activeSession =>
    let fmOut := FileMonitor.stopWatching st.fileMonitor fsv st.db
    let gmOut := GitMonitor.stopMonitoring st.gitMonitor fmOut.db
    let ended := DatabaseManager.endSession gmOut.db activeSession.id
    if ended.2 then
      (.ok { success := true, sessionId := some activeSession.id,
             message := "Stopped tracking session (ID: " ++
                        toString activeSession.id ++ ")" },
       { db := ended.1, currentSession := none,
         fileMonitor := fmOut.st, gitMonitor := gmOut.st })
    else
      (.ok { success := false, sessionId := none, message := "Failed to stop session" },
       { db := ended.1, currentSession := st.currentSession,
         fileMonitor := fmOut.st, gitMonitor := gmOut.st })

end SessionManager

/-- One externally triggered step of the whole subsystem: a Coordinator call,
a watcher callback, a file-snapshot interval tick, or a VCS poll tick. -/
inductive SysOp where
  | startOp (env : Env) (resolvedPath : String)
  | stopOp (fsv : FsView)
  | fileEventOp (filePath changeType : String) (t : Nat)
  | fileFlushOp (fsv : FsView)
  | gitPollOp (gv : GitView)

/-- Execute one step against the combined state. -/
def runSysOp (st : SMState) : SysOp → SMState
  | .startOp env p => (SessionManager.startSession st env p).2
  | .stopOp fsv => (SessionManager.stopSession st fsv).2
  | .fileEventOp f c t =>
    { st with fileMonitor := FileMonitor.trackFileChange st.fileMonitor f c t }
  | .fileFlushOp fsv =>
    let out := FileMonitor.captureSnapshot st.fileMonitor fsv st.db
    { st with fileMonitor := out.st, db := out.db }
  | .gitPollOp gv =>
    let out := GitMonitor.pollGitChanges st.gitMonitor st.db gv
    { st with gitMonitor := out.st, db := out.db }

/-- Execute a sequence of steps from the fresh system. -/
def runSysOps (ops : List SysOp) : SMState := ops.foldl runSysOp initSMState

/-- Number of sessions the store currently reports active. -/
def activeCount (db : DbState) : Nat :=
  (db.sessions.filter (fun r => r.status == "active")).length

/-! Helper lemmas: the store is never modified by the monitors (their only
writes go through the two missing DatabaseManager methods), and the
Coordinator preserves the single-active-session invariant. -/

theorem snapshotWriteLoop_db (sid : Nat) (fsv : FsView) (files : List FileInfo) :
    ∀ db : DbState, (FileMonitor.snapshotWriteLoop sid fsv db files).1 = db := by
  induction files with
  | nil => intro db; rfl
  | cons f rest ih =>
    intro db
    have h := ih db
    unfold FileMonitor.snapshotWriteLoop
    simp only [DatabaseManager.insertSnapshot]
    rcases hrec : FileMonitor.snapshotWriteLoop sid fsv db rest with ⟨db2, atts⟩
    rw [hrec] at h
    simpa using h

theorem snapshotWriteLoop_paths (sid : Nat) (fsv : FsView) (files : List FileInfo) :
    ∀ db : DbState,
      ((FileMonitor.snapshotWriteLoop sid fsv db files).2.map
        (fun a => a.record.filePath)) = files.map (fun f => f.path) := by
  induction files with
  | nil => intro db; rfl
  | cons f rest ih =>
    intro db
    have h := ih db
    unfold FileMonitor.snapshotWriteLoop
    simp only [DatabaseManager.insertSnapshot]
    rcases hrec : FileMonitor.snapshotWriteLoop sid fsv db rest with ⟨db2, atts⟩
    rw [hrec] at h
    simpa using h

theorem captureSnapshot_db (st : FileMonitorState) (fsv : FsView) (db : DbState) :
    (FileMonitor.captureSnapshot st fsv db).db = db := by
  unfold FileMonitor.captureSnapshot
  cases hsid : st.sessionId with
  | none => rfl
  | some sid =>
    by_cases hw : st.isWatching = false
    · simp [hw]
    · simp only [hw, if_false]
      by_cases he : (st.activeFiles.map (fun e => e.2)).length = 0
      · simp [he]
      · simp only [he, if_false]
        exact snapshotWriteLoop_db sid fsv (st.activeFiles.map (fun e => e.2)) db

theorem captureGitEvent_db (st : GitMonitorState) (db : DbState)
    (eventType : String) (data : EventData) :
    (GitMonitor.captureGitEvent st db eventType data).db = db := by
  unfold GitMonitor.captureGitEvent
  cases st.sessionId with
  | none => rfl
  | some sid => simp [DatabaseManager.insertGitEvent]

theorem commitWriteLoop_db (st : GitMonitorState) (gv : GitView) (branch : String)
    (commits : List Commit) :
    ∀ db : DbState, (GitMonitor.commitWriteLoop st gv branch db commits).1 = db := by
  induction commits with
  | nil => intro db; rfl
  | cons c rest ih =>
    intro db
    unfold GitMonitor.commitWriteLoop
    have hev := captureGitEvent_db st db "commit"
      { branchName := some branch, commitHash := some c.hash,
        commitMessage := some c.message,
        filesChanged := some (.fileList (GitMonitor.getCommitFiles gv c.hash)) }
    have h := ih (GitMonitor.captureGitEvent st db "commit"
      { branchName := some branch, commitHash := some c.hash,
        commitMessage := some c.message,
        filesChanged := some (.fileList (GitMonitor.getCommitFiles gv c.hash)) }).db
    rcases hrec : GitMonitor.commitWriteLoop st gv branch (GitMonitor.captureGitEvent st db "commit"
      { branchName := some branch, commitHash := some c.hash,
        commitMessage := some c.message,
        filesChanged := some (.fileList (GitMonitor.getCommitFiles gv c.hash))  }).db rest
      with ⟨db2, atts⟩
    rw [hrec] at h
    simp only [hrec]
    simpa [hev] using h

theorem checkStatusChanges_db (st : GitMonitorState) (db : DbState) (gv : GitView) :
    (GitMonitor.checkStatusChanges st db gv).1 = db := by
  unfold GitMonitor.checkStatusChanges
  by_cases h : 0 < gv.staged.length ∨ 0 < gv.modified.length ∨ 0 < gv.notAdded.length
  · rw [if_pos h]
    exact captureGitEvent_db ..
  · rw [if_neg h]

theorem branchStep_db (st : GitMonitorState) (db : DbState) (gv : GitView) :
    (GitMonitor.branchStep st db gv).db = db := by
  unfold GitMonitor.branchStep
  by_cases h : some (GitMonitor.getCurrentBranch gv) ≠ st.lastBranch
  · rw [if_pos h]
    exact captureGitEvent_db ..
  · rw [if_neg h]

theorem commitStep_db (st : GitMonitorState) (db : DbState) (gv : GitView)
    (currentBranch : String) :
    (GitMonitor.commitStep st db gv currentBranch).db = db := by
  unfold GitMonitor.commitStep
  cases hc : GitMonitor.getRecentCommits gv 5 with
  | nil => rfl
  | cons latestCommit restCommits =>
    dsimp only
    by_cases h : some latestCommit.hash ≠ st.lastCommitHash
    · rw [if_pos h]
      exact commitWriteLoop_db ..
    · rw [if_neg h]

theorem pollGitChanges_db (st : GitMonitorState) (db : DbState) (gv : GitView) :
    (GitMonitor.pollGitChanges st db gv).db = db := by
  unfold GitMonitor.pollGitChanges
  by_cases hg : st.isMonitoring = false ∨ st.hasGit = false
  · simp [hg]
  · simp only [hg, if_false]
    rw [checkStatusChanges_db, commitStep_db, branchStep_db]

theorem startWatching_db (st : FileMonitorState) (fsv : FsView) (db : DbState)
    (projectPath : String) (sessionId : Nat) (watchOk : Bool) :
    (FileMonitor.startWatching st fsv db projectPath sessionId watchOk).db = db := by
  unfold FileMonitor.startWatching
  by_cases h : watchOk = false
  · rw [if_pos h]
  · rw [if_neg h]
    exact captureSnapshot_db ..

theorem stopWatching_db (st : FileMonitorState) (fsv : FsView) (db : DbState) :
    (FileMonitor.stopWatching st fsv db).db = db := by
  unfold FileMonitor.stopWatching
  cases h : st.sessionId with
  | none => rfl
  | some sid =>
    dsimp only
    exact captureSnapshot_db ..

theorem startMonitoring_db (st : GitMonitorState) (db : DbState) (gv : GitView)
    (projectPath : String) (sessionId : Nat) (isRepo : Bool) :
    (GitMonitor.startMonitoring st db gv projectPath sessionId isRepo).db = db := by
  unfold GitMonitor.startMonitoring
  by_cases h : isRepo = false
  · rw [if_pos h]
  · rw [if_neg h]
    exact captureGitEvent_db ..

theorem stopMonitoring_db (st : GitMonitorState) (db : DbState) :
    (GitMonitor.stopMonitoring st db).db = db := by
  unfold GitMonitor.stopMonitoring
  dsimp only
  by_cases h : st.hasGit = true ∧ st.sessionId.isSome = true
  · rw [if_pos h]
    exact captureGitEvent_db ..
  · rw [if_neg h]

/-- pickLatest never invents a row: it is none exactly on the empty list. -/
theorem pickLatest_eq_none_iff (l : List SessionRow) :
    DatabaseManager.pickLatest l = none ↔ l = [] := by
  cases l with
  | nil => simp [DatabaseManager.pickLatest]
  | cons r rest =>
    simp only [DatabaseManager.pickLatest]
    constructor
    · intro h
      cases hp : DatabaseManager.pickLatest rest with
      | none =>
        rw [hp] at h
        dsimp only at h
        exact Option.noConfusion h
      | some b =>
        rw [hp] at h
        dsimp only at h
        by_cases hb : b.startTime ≥ r.startTime
        · rw [if_pos hb] at h
          exact Option.noConfusion h
        · rw [if_neg hb] at h
          exact Option.noConfusion h
    · intro h; cases h

/-- getActiveSession reports nothing exactly when no row is active. -/
theorem getActiveSession_none_iff (db : DbState) :
    DatabaseManager.getActiveSession db = none ↔
      db.sessions.filter (fun r => r.status == "active") = [] := by
  unfold DatabaseManager.getActiveSession
  exact pickLatest_eq_none_iff _

/-- Ending a session can only shrink the set of active rows. -/
theorem endSession_filter_le (i : Nat) (endT : Nat) (l : List SessionRow) :
    ((l.map (fun r =>
        if r.id == i && r.status == "active" then
          { r with endTime := some endT, status := "completed" }
        else r)).filter (fun r => r.status == "active")).length ≤
      (l.filter (fun r => r.status == "active")).length := by
  induction l with
  | nil => simp
  | cons r rest ih =>
    simp only [List.map_cons, List.filter_cons]
    by_cases hc : (r.id == i && r.status == "active") = true
    · rw [if_pos hc]
      have hact : (r.status == "active") = true := by
        rcases Bool.and_eq_true_iff.mp hc with ⟨_, h2⟩
        exact h2
      have hdone : ((({ r with endTime := some endT, status := "completed" } :
          SessionRow).status == "active")) = false := rfl
      rw [hdone, hact]
      simp only [Bool.false_eq_true, if_false, if_true, List.length_cons]
      exact Nat.le_trans ih (Nat.le_succ _)
    · rw [if_neg hc]
      by_cases ha : (r.status == "active") = true
      · rw [ha]
        simp only [if_true, List.length_cons]
        exact Nat.succ_le_succ ih
      · rw [Bool.of_not_eq_true ha]
        simp only [Bool.false_eq_true, if_false]
        exact ih

theorem endSession_activeCount (db : DbState) (i : Nat) :
    activeCount (DatabaseManager.endSession db i).1 ≤ activeCount db := by
  unfold activeCount DatabaseManager.endSession
  exact endSession_filter_le i db.now db.sessions

/-- endSession leaves the snapshots and git_events tables untouched. -/
theorem endSession_tables (db : DbState) (i : Nat) :
    (DatabaseManager.endSession db i).1.snapshots = db.snapshots ∧
      (DatabaseManager.endSession db i).1.gitEvents = db.gitEvents := ⟨rfl, rfl⟩

/-- createSession appends one active row and touches nothing else. -/
theorem createSession_effect (db : DbState) (p : String) :
    (DatabaseManager.createSession db p).1.snapshots = db.snapshots ∧
    (DatabaseManager.createSession db p).1.gitEvents = db.gitEvents ∧
    activeCount (DatabaseManager.createSession db p).1 = activeCount db + 1 := by
  refine ⟨rfl, rfl, ?_⟩
  unfold activeCount DatabaseManager.createSession
  simp [List.filter_append]

/-- One system step never touches the snapshots or git_events tables (their
insert methods are missing, so every monitor write fails and is swallowed),
and preserves the at-most-one-active-session invariant. -/
theorem runSysOp_db_preserved (st : SMState) (op : SysOp) :
    (runSysOp st op).db.snapshots = st.db.snapshots ∧
    (runSysOp st op).db.gitEvents = st.db.gitEvents ∧
    (activeCount st.db ≤ 1 → activeCount (runSysOp st op).db ≤ 1) := by
  cases op with
  | startOp env p =>
    unfold runSysOp SessionManager.startSession
    dsimp only
    by_cases hpe : env.pathExists = false
    · rw [if_pos hpe]
      exact ⟨rfl, rfl, fun h => h⟩
    · rw [if_neg hpe]
      cases hact : DatabaseManager.getActiveSession st.db with
      | some s =>
        dsimp only
        exact ⟨rfl, rfl, fun h => h⟩
      | none =>
        dsimp only
        rw [startMonitoring_db, startWatching_db]
        refine ⟨rfl, rfl, fun _ => ?_⟩
        have hfempty : st.db.sessions.filter (fun r => r.status == "active") = [] :=
          (getActiveSession_none_iff st.db).mp hact
        have hzero : activeCount st.db = 0 := by
          unfold activeCount
          rw [hfempty]
          rfl
        have := (createSession_effect st.db p).2.2
        omega
  | stopOp fsv =>
    unfold runSysOp SessionManager.stopSession
    cases hact : DatabaseManager.getActiveSession st.db with
    | none =>
      dsimp only
      exact ⟨rfl, rfl, fun h => h⟩
    | some s =>
      dsimp only
      rw [stopMonitoring_db, stopWatching_db]
      constructor
      · split <;> exact (endSession_tables st.db s.id).1
      constructor
      · split <;> exact (endSession_tables st.db s.id).2
      · intro h
        have := endSession_activeCount st.db s.id
        split <;> (dsimp only; omega)
  | fileEventOp f c t =>
    exact ⟨rfl, rfl, fun h => h⟩
  | fileFlushOp fsv =>
    unfold runSysOp
    dsimp only
    rw [captureSnapshot_db]
    exact ⟨rfl, rfl, fun h => h⟩
  | gitPollOp gv =>
    unfold runSysOp
    dsimp only
    rw [pollGitChanges_db]
    exact ⟨rfl, rfl, fun h => h⟩

/-- Any property preserved by every step holds after any run. -/
theorem foldl_runSysOp_preserve (P : SMState → Prop)
    (hstep : ∀ st op, P st → P (runSysOp st op)) :
    ∀ (ops : List SysOp) (st : SMState), P st → P (ops.foldl runSysOp st)
  | [], _, h => h
  | op :: ops, st, h =>
    foldl_runSysOp_preserve P hstep ops (runSysOp st op) (hstep st op h)

/-! Concrete fixtures used by the claim theorems and witnesses. -/

/-- A filesystem view in which no watched file still exists (sufficient for
the scenarios below, whose stat results are never consulted or irrelevant). -/
def trivialFsView : FsView :=
  { fileExists := fun _ => false, size := fun _ => 0, mtime := fun _ => 0 }

/-- Shorthand for a commit with fixed author metadata. -/
def commitC (h m : String) : Commit :=
  { hash := h, message := m, author := "dev", date := "2026-01-01", refs := "" }

/-- A clean repository view: branch main, single commit C1, empty status. -/
def gvMainClean : GitView :=
  { statusCurrent := some "main", recentCommits := [commitC "C1" "m1"],
    staged := [], modified := [], notAdded := [], deleted := [],
    commitFiles := fun _ => [] }

/-- An environment whose path exists, whose watcher attaches, and whose
project directory is not a git repository. -/
def plainEnv : Env :=
  { pathExists := true, watchOk := true, isRepo := false,
    fsv := trivialFsView, gv := gvMainClean }

/-- An environment whose project path does not exist. -/
def ghostEnv : Env := { plainEnv with pathExists := false }

/-- An active session row with id 1. -/
def sessionRow1 : SessionRow :=
  { id := 1, projectPath := "/tmp/proj", startTime := 0, endTime := none,
    status := "active" }

/-- A SessionManager whose store holds exactly the active session 1. -/
def smWithActive : SMState :=
  { db := { sessions := [sessionRow1], snapshots := [], gitEvents := [],
            nextSessionId := 2, now := 0 },
    currentSession := some sessionRow1,
    fileMonitor := initFileMonitor, gitMonitor := initGitMonitor }

/-- A watching file monitor for session 1 with one pending modified file. -/
def fmPending : FileMonitorState :=
  { projectPath := some "/proj", sessionId := some 1, isWatching := true,
    snapshotIntervalSet := true, watcherSet := true,
    activeFiles := [("a.txt", { path := "a.txt", absolutePath := "/proj/a.txt",
                                changeType := "modified", timestamp := 1 })] }

/-- A watching file monitor for session 1 with an empty pending map. -/
def fmC3Start : FileMonitorState :=
  { projectPath := some "/proj", sessionId := some 1, isWatching := true,
    snapshotIntervalSet := true, watcherSet := true, activeFiles := [] }

/-- fmC3Start after the watcher reports modify, modify, delete on a.txt. -/
def fmC3AfterEvents : FileMonitorState :=
  FileMonitor.trackFileChange
    (FileMonitor.trackFileChange
      (FileMonitor.trackFileChange fmC3Start "/proj/a.txt" "modified" 1)
      "/proj/a.txt" "modified" 2)
    "/proj/a.txt" "deleted" 3

/-! Claim theorems. -/

/-- C9: startSession on a path that does not resolve to an existing
filesystem entry throws the PathNotFound error (wrapped by the outer catch)
and returns with the SessionManager and its store completely unchanged: no
session row is created and no other table is modified. -/
theorem claim_C9_path_not_found (st : SMState) (env : Env) (p : String)
    (h : env.pathExists = false) :
    SessionManager.startSession st env p =
      (.error ("Failed to start session: Project path does not exist: " ++ p), st) := by
  unfold SessionManager.startSession
  rw [if_pos h]

/-- Witness for C9: a concrete bad-path start against the fresh system. -/
theorem claim_C9_path_not_found_witness :
    SessionManager.startSession initSMState ghostEnv "/tmp/missing" =
      (.error ("Failed to start session: Project path does not exist: " ++ "/tmp/missing"),
       initSMState) :=
  claim_C9_path_not_found initSMState ghostEnv "/tmp/missing" rfl

/-- C8: stopSession with no active session returns the success:false result
with its message without throwing, leaves the state untouched, and repeating
the call returns the identical result. -/
theorem claim_C8_stop_without_active_idempotent (st : SMState) (fsv : FsView)
    (h : DatabaseManager.getActiveSession st.db = none) :
    SessionManager.stopSession st fsv =
      (.ok { success := false, sessionId := none,
             message := "No active session to stop" }, st) ∧
    SessionManager.stopSession (SessionManager.stopSession st fsv).2 fsv =
      SessionManager.stopSession st fsv := by
  have h1 : SessionManager.stopSession st fsv =
      (.ok { success := false, sessionId := none,
             message := "No active session to stop" }, st) := by
    unfold SessionManager.stopSession
    rw [h]
  refine ⟨h1, ?_⟩
  rw [h1]
  exact h1

/-- Witness for C8: stopping twice on the fresh system. -/
theorem claim_C8_stop_without_active_idempotent_witness :
    SessionManager.stopSession initSMState trivialFsView =
      (.ok { success := false, sessionId := none,
             message := "No active session to stop" }, initSMState) ∧
    SessionManager.stopSession (SessionManager.stopSession initSMState trivialFsView).2
        trivialFsView =
      SessionManager.stopSession initSMState trivialFsView :=
  claim_C8_stop_without_active_idempotent initSMState trivialFsView rfl

/-- C1: over every operation sequence from the fresh system at most one
session row is active at any time; and a startSession issued (with an
existing path) while the store reports an active session returns the
SessionConflict throw, whose message carries that session's identifier, with
the entire state unchanged, so the prior session's row is untouched. -/
theorem claim_C1_single_active_session :
    (∀ ops : List SysOp, activeCount (runSysOps ops).db ≤ 1) ∧
    (∀ (st : SMState) (env : Env) (p : String) (s : SessionRow),
      env.pathExists = true →
      DatabaseManager.getActiveSession st.db = some s →
      SessionManager.startSession st env p =
        (.error ("Failed to start session: Session already active (ID: " ++
                 toString s.id ++ "). Stop the current session first."), st)) := by
  constructor
  · intro ops
    exact foldl_runSysOp_preserve (fun x => activeCount x.db ≤ 1)
      (fun st op h => (runSysOp_db_preserved st op).2.2 h) ops initSMState (by decide)
  · intro st env p s hpe hact
    unfold SessionManager.startSession
    rw [if_neg (by simp [hpe]), hact]

/-- Witness for C1: a run of two starts and a stop, and the concrete conflict
against the store holding active session 1. -/
theorem claim_C1_single_active_session_witness :
    activeCount (runSysOps [SysOp.startOp plainEnv "/tmp/proj",
                            SysOp.startOp plainEnv "/tmp/proj",
                            SysOp.stopOp trivialFsView]).db ≤ 1 ∧
    SessionManager.startSession smWithActive plainEnv "/tmp/proj" =
      (.error ("Failed to start session: Session already active (ID: " ++
               toString sessionRow1.id ++ "). Stop the current session first."),
       smWithActive) :=
  ⟨claim_C1_single_active_session.1 _,
   claim_C1_single_active_session.2 smWithActive plainEnv "/tmp/proj" sessionRow1
     rfl rfl⟩

/-- C2: the store defines no insertSnapshot or insertGitEvent operation, so
every persistence attempt by FileMonitor.captureSnapshot and
GitMonitor.captureGitEvent fails with a TypeError that the surrounding
per-unit handlers swallow: over every operation sequence no snapshot row and
no git-event row is ever written, getSessionStats always reports zero
snapshots and zero gitEvents, and the monitors nonetheless clear their
pending state (the flush empties activeFiles) and report success
(captureGitEvent returns null instead of propagating the failure, and the
flush leaves the store exactly as it found it). -/
theorem claim_C2_no_store_writes :
    (DatabaseManager.definedMethods.contains "insertSnapshot" = false) ∧
    (DatabaseManager.definedMethods.contains "insertGitEvent" = false) ∧
    (∀ (db : DbState) (sid : Nat) (r : SnapshotRecord),
        DatabaseManager.insertSnapshot db sid r =
          .error "TypeError: this.dbManager.insertSnapshot is not a function") ∧
    (∀ (db : DbState) (sid : Nat) (e : GitEventAttempt),
        DatabaseManager.insertGitEvent db sid e =
          .error "TypeError: this.dbManager.insertGitEvent is not a function") ∧
    (∀ ops : List SysOp,
        (runSysOps ops).db.snapshots = [] ∧ (runSysOps ops).db.gitEvents = []) ∧
    (∀ (ops : List SysOp) (sid : Nat),
        DatabaseManager.getSessionStats (runSysOps ops).db sid =
          { snapshots := 0, gitEvents := 0 }) ∧
    (∀ (st : FileMonitorState) (fsv : FsView) (db : DbState),
        (FileMonitor.captureSnapshot st fsv db).db = db) ∧
    (∀ (st : FileMonitorState) (fsv : FsView) (db : DbState)
        (sid : Nat), st.isWatching = true → st.sessionId = some sid →
        (FileMonitor.captureSnapshot st fsv db).st.activeFiles = []) ∧
    (∀ (st : GitMonitorState) (db : DbState) (eventType : String) (data : EventData),
        (GitMonitor.captureGitEvent st db eventType data).db = db ∧
        (GitMonitor.captureGitEvent st db eventType data).eventId = none) := by
  have htables : ∀ ops : List SysOp,
      (runSysOps ops).db.snapshots = [] ∧ (runSysOps ops).db.gitEvents = [] := by
    intro ops
    exact foldl_runSysOp_preserve
      (fun x => x.db.snapshots = [] ∧ x.db.gitEvents = [])
      (fun st op h =>
        ⟨(runSysOp_db_preserved st op).1.trans h.1,
         (runSysOp_db_preserved st op).2.1.trans h.2⟩)
      ops initSMState ⟨rfl, rfl⟩
  refine ⟨rfl, rfl, fun _ _ _ => rfl, fun _ _ _ => rfl, htables, ?_, ?_, ?_, ?_⟩
  · intro ops sid
    unfold DatabaseManager.getSessionStats
    rw [(htables ops).1, (htables ops).2]
    rfl
  · intro st fsv db
    exact captureSnapshot_db ..
  · intro st fsv db sid hw hs
    unfold FileMonitor.captureSnapshot
    rw [hs]
    dsimp only
    rw [if_neg (by simp [hw])]
    by_cases he : (st.activeFiles.map (fun e => e.2)).length = 0
    · rw [if_pos he]
      have : st.activeFiles = [] := by
        have := List.length_map st.activeFiles (fun e => e.2)
        have hlen : st.activeFiles.length = 0 := by omega
        exact List.eq_nil_of_length_eq_zero hlen
      simpa using this
    · rw [if_neg he]
  · intro st db eventType data
    refine ⟨captureGitEvent_db .., ?_⟩
    unfold GitMonitor.captureGitEvent
    cases st.sessionId with
    | none => rfl
    | some sid => simp [DatabaseManager.insertGitEvent]

/-- Witness for C2: the pending map of a watching monitor is emptied by a
flush that wrote nothing, and a concrete run reports zero stats. -/
theorem claim_C2_no_store_writes_witness :
    (FileMonitor.captureSnapshot fmPending trivialFsView emptyDb).st.activeFiles = [] ∧
    DatabaseManager.getSessionStats
        (runSysOps [SysOp.startOp plainEnv "/tmp/proj"]).db 1 =
      { snapshots := 0, gitEvents := 0 } :=
  ⟨claim_C2_no_store_writes.2.2.2.2.2.2.2.1 fmPending trivialFsView emptyDb 1 rfl rfl,
   claim_C2_no_store_writes.2.2.2.2.2.1 [SysOp.startOp plainEnv "/tmp/proj"] 1⟩

/-- C3 (divergence at the failing input): after modify, modify, delete on
a.txt the pending map holds exactly one entry recording the most recent kind,
deleted — the coalescing half of the claim holds — but the next flush issues
exactly one insertSnapshot call, with kind deleted, that fails against the
missing store method: the snapshots table stays empty, so the "writes exactly
one Snapshot row" half is false on the code. -/
theorem claim_C3_coalesced_but_no_row_written :
    fmC3AfterEvents.activeFiles =
      [("a.txt", { path := "a.txt", absolutePath := "/proj/a.txt",
                   changeType := "deleted", timestamp := 3 })] ∧
    (FileMonitor.captureSnapshot fmC3AfterEvents trivialFsView emptyDb).attempts =
      [{ sessionId := 1,
         record := { filePath := "a.txt", fileSize := none, lastModified := none,
                     changeType := "deleted" } }] ∧
    (FileMonitor.captureSnapshot fmC3AfterEvents trivialFsView emptyDb).db.snapshots =
      [] := by
  refine ⟨?_, ?_, ?_⟩ <;> rfl

/-- C5 (divergence): stopWatching clears isWatching before it calls
captureSnapshot, whose guard then returns immediately, so NO final flush is
performed for any state: the pending entries are discarded unwritten (and
unattempted), after which the timer, the watcher and the in-memory state are
cleared and the call returns true; stopping while not watching is likewise a
state-clearing success.  Concretely, stopping with a.txt pending issues zero
insertSnapshot calls, against the claim's "each entry pending at the time of
the call is written". -/
theorem claim_C5_stop_final_flush_skipped :
    (∀ (st : FileMonitorState) (fsv : FsView) (db : DbState),
      (FileMonitor.stopWatching st fsv db).attempts = [] ∧
      (FileMonitor.stopWatching st fsv db).db = db ∧
      (FileMonitor.stopWatching st fsv db).ok = true ∧
      (FileMonitor.stopWatching st fsv db).st = initFileMonitor) ∧
    (FileMonitor.stopWatching fmPending trivialFsView emptyDb).attempts = [] := by
  have hflush : ∀ (st : FileMonitorState) (fsv : FsView) (db : DbState),
      st.isWatching = false →
      FileMonitor.captureSnapshot st fsv db = ⟨st, db, []⟩ := by
    intro st fsv db hw
    unfold FileMonitor.captureSnapshot
    cases hs : st.sessionId with
    | none => rfl
    | some sid =>
      dsimp only
      rw [if_pos hw]
  constructor
  · intro st fsv db
    have hfl := hflush { st with isWatching := false } fsv db rfl
    unfold FileMonitor.stopWatching
    dsimp only
    cases hs : st.sessionId with
    | none =>
      dsimp only
      exact ⟨rfl, rfl, rfl, rfl⟩
    | some sid =>
      dsimp only
      rw [hs] at hfl
      rw [hfl]
      exact ⟨rfl, rfl, rfl, rfl⟩
  · rfl

/-- Map.set always leaves its key in the map's key list, whether it replaced
an existing entry or appended a new one. -/
theorem mapSet_key_mem (m : List (String × FileInfo)) (k : String) (v : FileInfo) :
    k ∈ (FileMonitor.mapSet m k v).map (fun e => e.1) := by
  unfold FileMonitor.mapSet
  by_cases h : m.any (fun e => e.1 == k) = true
  · rw [if_pos h]
    rcases List.any_eq_true.mp h with ⟨x, hx, hxk⟩
    refine List.mem_map.mpr ⟨(k, v), ?_, rfl⟩
    refine List.mem_map.mpr ⟨x, hx, ?_⟩
    simp [hxk]
  · rw [if_neg h]
    refine List.mem_map.mpr ⟨(k, v), ?_, rfl⟩
    simp

/-- Map.set with a value recording its own key leaves that key among the
stored entries' paths. -/
theorem mapSet_path_mem (m : List (String × FileInfo)) (k : String) (v : FileInfo)
    (hv : v.path = k) :
    k ∈ (FileMonitor.mapSet m k v).map (fun e => e.2.path) := by
  unfold FileMonitor.mapSet
  by_cases h : m.any (fun e => e.1 == k) = true
  · rw [if_pos h]
    rcases List.any_eq_true.mp h with ⟨x, hx, hxk⟩
    refine List.mem_map.mpr ⟨(k, v), ?_, hv⟩
    refine List.mem_map.mpr ⟨x, hx, ?_⟩
    simp [hxk]
  · rw [if_neg h]
    refine List.mem_map.mpr ⟨(k, v), ?_, hv⟩
    simp

/-- C7: a snapshot flush is one atomic step of the event loop — its body
contains no real suspension point, because its only awaited operand is the
call to the missing insertSnapshot method, which throws synchronously, and
every other operation in the loop is synchronous — so the monitor takes
ownership of exactly the entries pending at flush start, issues exactly one
write per entry in map order (nothing is double-counted), and leaves the
pending map empty; and a change event delivered on either side of a flush is
never lost: delivered just before, its path is part of that flush's writes;
delivered just after, it is retained in the pending map for the next flush. -/
theorem claim_C7_atomic_flush_no_loss :
    (∀ (st : FileMonitorState) (fsv : FsView) (db : DbState) (sid : Nat),
      st.isWatching = true → st.sessionId = some sid →
      ((FileMonitor.captureSnapshot st fsv db).attempts.map
          (fun a => a.record.filePath)) = st.activeFiles.map (fun e => e.2.path) ∧
      (FileMonitor.captureSnapshot st fsv db).st.activeFiles = [] ∧
      (FileMonitor.captureSnapshot st fsv db).db = db) ∧
    (∀ (st : FileMonitorState) (fsv : FsView) (db : DbState) (sid : Nat)
        (pp f c : String) (t : Nat),
      st.isWatching = true → st.sessionId = some sid → st.projectPath = some pp →
      FileMonitor.relativeTo pp f ∈
        ((FileMonitor.captureSnapshot (FileMonitor.trackFileChange st f c t) fsv db).attempts.map
          (fun a => a.record.filePath))) ∧
    (∀ (st : FileMonitorState) (fsv : FsView) (db : DbState)
        (pp f c : String) (t : Nat),
      st.isWatching = true → st.projectPath = some pp →
      FileMonitor.relativeTo pp f ∈
        ((FileMonitor.trackFileChange (FileMonitor.captureSnapshot st fsv db).st
            f c t).activeFiles.map (fun e => e.1))) := by
  have htrack : ∀ (st : FileMonitorState) (pp f c : String) (t : Nat),
      st.isWatching = true → st.projectPath = some pp →
      (FileMonitor.trackFileChange st f c t).activeFiles =
        FileMonitor.mapSet st.activeFiles (FileMonitor.relativeTo pp f)
          ({ path := FileMonitor.relativeTo pp f, absolutePath := f,
             changeType := c, timestamp := t }) ∧
      (FileMonitor.trackFileChange st f c t).isWatching = st.isWatching ∧
      (FileMonitor.trackFileChange st f c t).sessionId = st.sessionId := by
    intro st pp f c t hw hp
    unfold FileMonitor.trackFileChange
    rw [if_neg (by simp [hw]), hp]
    exact ⟨rfl, rfl, rfl⟩
  have hmain : ∀ (st : FileMonitorState) (fsv : FsView) (db : DbState) (sid : Nat),
      st.isWatching = true → st.sessionId = some sid →
      ((FileMonitor.captureSnapshot st fsv db).attempts.map
          (fun a => a.record.filePath)) = st.activeFiles.map (fun e => e.2.path) ∧
      (FileMonitor.captureSnapshot st fsv db).st.activeFiles = [] ∧
      (FileMonitor.captureSnapshot st fsv db).db = db := by
    intro st fsv db sid hw hs
    unfold FileMonitor.captureSnapshot
    rw [hs]
    dsimp only
    rw [if_neg (by simp [hw])]
    by_cases he : (st.activeFiles.map (fun e => e.2)).length = 0
    · rw [if_pos he]
      have hnil : st.activeFiles = [] := by
        have := List.length_map st.activeFiles (fun e => e.2)
        have hlen : st.activeFiles.length = 0 := by omega
        exact List.eq_nil_of_length_eq_zero hlen
      refine ⟨?_, ?_, rfl⟩
      · simp [hnil]
      · simpa using hnil
    · rw [if_neg he]
      refine ⟨?_, rfl, ?_⟩
      · show ((FileMonitor.snapshotWriteLoop sid fsv db
            (st.activeFiles.map (fun e => e.2))).2.map (fun a => a.record.filePath)) =
          st.activeFiles.map (fun e => e.2.path)
        rw [snapshotWriteLoop_paths]
        simp [List.map_map]
      · show (FileMonitor.snapshotWriteLoop sid fsv db
            (st.activeFiles.map (fun e => e.2))).1 = db
        exact snapshotWriteLoop_db ..
  refine ⟨hmain, ?_, ?_⟩
  · intro st fsv db sid pp f c t hw hs hp
    obtain ⟨hact, hwp, hsp⟩ := htrack st pp f c t hw hp
    have h1 := (hmain (FileMonitor.trackFileChange st f c t) fsv db sid
        (by rw [hwp, hw]) (by rw [hsp, hs])).1
    rw [h1, hact]
    exact mapSet_path_mem _ _ _ rfl
  · intro st fsv db pp f c t hw hp
    have hpres : (FileMonitor.captureSnapshot st fsv db).st.isWatching = true ∧
        (FileMonitor.captureSnapshot st fsv db).st.projectPath = some pp := by
      unfold FileMonitor.captureSnapshot
      cases hsid : st.sessionId with
      | none => exact ⟨hw, hp⟩
      | some sid =>
        dsimp only
        rw [if_neg (by simp [hw])]
        by_cases he : (st.activeFiles.map (fun e => e.2)).length = 0
        · rw [if_pos he]
          exact ⟨hw, hp⟩
        · rw [if_neg he]
          exact ⟨hw, hp⟩
    obtain ⟨hact, _, _⟩ := htrack (FileMonitor.captureSnapshot st fsv db).st
      pp f c t hpres.1 hpres.2
    rw [hact]
    exact mapSet_key_mem _ _ _

/-- Witness for C7: the pending a.txt is flushed exactly once and the map
emptied; a b.txt event delivered just before a flush is part of that flush's
writes; delivered just after a flush, it is retained in the pending map. -/
theorem claim_C7_atomic_flush_no_loss_witness :
    (((FileMonitor.captureSnapshot fmPending trivialFsView emptyDb).attempts.map
        (fun a => a.record.filePath)) = fmPending.activeFiles.map (fun e => e.2.path) ∧
     (FileMonitor.captureSnapshot fmPending trivialFsView emptyDb).st.activeFiles = [] ∧
     (FileMonitor.captureSnapshot fmPending trivialFsView emptyDb).db = emptyDb) ∧
    FileMonitor.relativeTo "/proj" "/proj/b.txt" ∈
      ((FileMonitor.captureSnapshot
          (FileMonitor.trackFileChange fmPending "/proj/b.txt" "added" 5)
          trivialFsView emptyDb).attempts.map (fun a => a.record.filePath)) ∧
    FileMonitor.relativeTo "/proj" "/proj/b.txt" ∈
      ((FileMonitor.trackFileChange
          (FileMonitor.captureSnapshot fmPending trivialFsView emptyDb).st
          "/proj/b.txt" "added" 5).activeFiles.map (fun e => e.1)) :=
  ⟨claim_C7_atomic_flush_no_loss.1 fmPending trivialFsView emptyDb 1 rfl rfl,
   claim_C7_atomic_flush_no_loss.2.1 fmPending trivialFsView emptyDb 1
     "/proj" "/proj/b.txt" "added" 5 rfl rfl rfl,
   claim_C7_atomic_flush_no_loss.2.2 fmPending trivialFsView emptyDb
     "/proj" "/proj/b.txt" "added" 5 rfl rfl⟩

/-- A monitoring git monitor for session 1, baseline branch main, hash C1. -/
def gmAtC1 : GitMonitorState :=
  { hasGit := true, projectPath := some "/proj", sessionId := some 1,
    isMonitoring := true, monitoringIntervalSet := true,
    lastCommitHash := some "C1", lastBranch := some "main" }

/-- The same monitor with a last-known hash C0 outside the polled window. -/
def gmAtC0 : GitMonitorState := { gmAtC1 with lastCommitHash := some "C0" }

/-- Repository view: still on main, commits newest-first C4,C3,C2,C1, clean
working tree. -/
def gvFourCommits : GitView :=
  { statusCurrent := some "main",
    recentCommits := [commitC "C4" "m4", commitC "C3" "m3",
                      commitC "C2" "m2", commitC "C1" "m1"],
    staged := [], modified := [], notAdded := [], deleted := [],
    commitFiles := fun _ => [] }

/-- C4 (divergence at the failing input): with last-known hash C1 and poll
window C4,C3,C2,C1 the monitor issues exactly three commit events, oldest of
the new commits first (C2, C3, C4), and updates the last-known hash to C4;
with a last-known hash absent from the window all four polled commits are
treated as new; but every one of those writes fails against the missing
insertGitEvent, so the git_events table stays empty and no commit event is
actually written. -/
theorem claim_C4_commit_walk_but_no_rows :
    ((GitMonitor.pollGitChanges gmAtC1 emptyDb gvFourCommits).attempts.map
        (fun a => (a.eventType, a.commitHash))) =
      [("commit", some "C2"), ("commit", some "C3"), ("commit", some "C4")] ∧
    (GitMonitor.pollGitChanges gmAtC1 emptyDb gvFourCommits).st.lastCommitHash
      = some "C4" ∧
    (GitMonitor.pollGitChanges gmAtC1 emptyDb gvFourCommits).db.gitEvents = [] ∧
    ((GitMonitor.pollGitChanges gmAtC0 emptyDb gvFourCommits).attempts.map
        (fun a => (a.eventType, a.commitHash))) =
      [("commit", some "C1"), ("commit", some "C2"),
       ("commit", some "C3"), ("commit", some "C4")] :=
  ⟨rfl, rfl, rfl, rfl⟩

/-- Dirty working tree: one modified file, nothing staged or untracked. -/
def gvDirtyModified : GitView := { gvMainClean with modified := ["a.txt"] }

/-- Working tree whose only change is an unstaged deletion. -/
def gvDeletedOnly : GitView := { gvMainClean with deleted := ["b.txt"] }

/-- C6 (divergences at the failing inputs): on a poll with a modified file the
monitor issues exactly one status_change event carrying the categorized lists
and, its state unchanged, issues one again on the next dirty poll (the
trigger is level, not edge) — but the write fails against the missing
insertGitEvent, so no status_change row is ever written; and on a poll whose
only non-empty list is `deleted` the source's trigger (staged / modified /
not_added only) fires nothing at all, against the claim's "any of the four
lists". -/
theorem claim_C6_status_level_trigger_gaps :
    ((GitMonitor.pollGitChanges gmAtC1 emptyDb gvDirtyModified).attempts.map
        (fun a => (a.eventType, a.filesChanged))) =
      [("status_change", some (.statusLists [] ["a.txt"] [] []))] ∧
    (GitMonitor.pollGitChanges gmAtC1 emptyDb gvDirtyModified).st = gmAtC1 ∧
    (GitMonitor.pollGitChanges gmAtC1 emptyDb gvDirtyModified).db.gitEvents = [] ∧
    ((GitMonitor.pollGitChanges
        (GitMonitor.pollGitChanges gmAtC1 emptyDb gvDirtyModified).st
        emptyDb gvDirtyModified).attempts.map (fun a => a.eventType)) =
      ["status_change"] ∧
    (GitMonitor.pollGitChanges gmAtC1 emptyDb gvDeletedOnly).attempts = [] :=
  ⟨rfl, rfl, rfl, rfl, rfl⟩

/-- Repository view after switching to feature/x (same single commit C1,
clean tree). -/
def gvFeatureX : GitView := { gvMainClean with statusCurrent := some "feature/x" }

/-- C10 (divergence at the failing input): polling with last-known branch main
while the repository reports feature/x issues exactly one branch_change event
and updates the last-known branch, and a second poll on the same branch
issues none — but the single write fails against the missing insertGitEvent,
so no branch_change row is actually written. -/
theorem claim_C10_branch_change_but_no_row :
    ((GitMonitor.pollGitChanges gmAtC1 emptyDb gvFeatureX).attempts.map
        (fun a => (a.eventType, a.branchName))) =
      [("branch_change", some "feature/x")] ∧
    (GitMonitor.pollGitChanges gmAtC1 emptyDb gvFeatureX).st.lastBranch
      = some "feature/x" ∧
    (GitMonitor.pollGitChanges gmAtC1 emptyDb gvFeatureX).db.gitEvents = [] ∧
    (GitMonitor.pollGitChanges (GitMonitor.pollGitChanges gmAtC1 emptyDb gvFeatureX).st
        emptyDb gvFeatureX).attempts = [] :=
  ⟨rfl, rfl, rfl, rfl⟩
